import Mathlib

/-!
Verification of the live-update/reconnection subsystem (WebSocketManager in
the websocket module, together with the buildWsUrl helper of config.js).

The manager is embedded shallowly: its mutable fields become a state record,
each method and each transport/timer callback becomes a function from the
state to a new state plus a list of externally visible effects (transport
opens and closes, timer arms and clears, observer notifications, console
logs).  Timer delays are carried inside the arm effects; a timer firing is a
separate input event.  The browser host pieces the manager calls
(JSON.parse, the WebSocket object) are modelled abstractly: JSON.parse is a
parameter of type String to Option Json, the transport is a record holding
its readyState.
-/

namespace WsSpec

/-- JSON values, as produced by the host JSON.parse and consumed by
JSON.stringify.  Numbers are modelled as integers; the frames the dashboard
exchanges only use integral numbers. -/
inductive Json where
  | null : Json
  | bool : Bool → Json
  | num : Int → Json
  | str : String → Json
  | arr : List Json → Json
  | obj : List (String × Json) → Json
deriving Repr

mutual

/-- Model of JSON.stringify (string escaping is not modelled; the payloads
the manager sends contain no characters needing escapes). -/
def stringify : Json → String
  | Json.null => "null"
  | Json.bool true => "true"
  | Json.bool false => "false"
  | Json.num n => toString n
  | Json.str s => "\"" ++ s ++ "\""
  | Json.arr es => "[" ++ stringifyList es ++ "]"
  | Json.obj fs => "\x7b" ++ stringifyFields fs ++ "\x7d"

def stringifyList : List Json → String
  | [] => ""
  | [e] => stringify e
  | e :: es => stringify e ++ "," ++ stringifyList es

def stringifyFields : List (String × Json) → String
  | [] => ""
  | [(k, v)] => "\"" ++ k ++ "\":" ++ stringify v
  | (k, v) :: fs => "\"" ++ k ++ "\":" ++ stringify v ++ "," ++ stringifyFields fs

end

/-- Field lookup in a JSON object, first binding wins (JS property access). -/
def lookupField : List (String × Json) → String → Option Json
  | [], _ => none
  | (k, v) :: fs, key => if k = key then some v else lookupField fs key

/-- The value of data.type when it is a string: the discriminator the
manager compares against the pong literal in handleMessage. -/
def Json.typeField : Json → Option String
  | Json.obj fs =>
      match lookupField fs "type" with
      | some (Json.str s) => some s
      | _ => none
  | _ => none

/-- WebSocket readyState constants (WebSocket.CONNECTING, OPEN, CLOSING,
CLOSED).  The readyState of a live transport is always one of these four,
so the default branch of getState in the source is unreachable. -/
inductive ReadyState where
  | CONNECTING : ReadyState
  | OPEN : ReadyState
  | CLOSING : ReadyState
  | CLOSED : ReadyState
deriving DecidableEq, Repr

/-- The underlying transport object: all the manager reads from it is its
readyState. -/
structure WS where
  readyState : ReadyState
deriving DecidableEq, Repr

/-- The mutable fields of WebSocketManager.  Timer handle fields become
booleans recording whether the field currently holds a handle; listener
sets become lists of listener identifiers (JS Set iteration order, no
duplicates by construction of the add operations). -/
structure ManagerState where
  ws : Option WS
  reconnectAttempts : Nat
  isConnecting : Bool
  connectionListeners : List Nat
  messageListeners : List Nat
  heartbeatInterval : Bool
  heartbeatTimeout : Bool
  reconnectTimeout : Bool
deriving Repr

/-- this.maxReconnectAttempts, set to 10 in the constructor. -/
def maxReconnectAttempts : Nat := 10

/-- The constructor of WebSocketManager. -/
def initialState : ManagerState :=
  { ws := none
    reconnectAttempts := 0
    isConnecting := false
    connectionListeners := []
    messageListeners := []
    heartbeatInterval := false
    heartbeatTimeout := false
    reconnectTimeout := false }

/-- Externally visible actions: transport operations, timer arms and
clears (the delay in milliseconds is recorded on the arm), observer
callbacks, console output.  openTransport records the path handed to the
URL-resolution collaborator buildWsUrl. -/
inductive Effect where
  | openTransport (path : String) : Effect
  | armHeartbeatInterval (periodMs : Nat) : Effect
  | armHeartbeatTimeout (timeoutMs : Nat) : Effect
  | clearHeartbeatInterval : Effect
  | clearHeartbeatTimeout : Effect
  | armReconnectTimer (delayMs : Nat) : Effect
  | clearReconnectTimer : Effect
  | wsSend (text : String) : Effect
  | wsClose (code : Nat) (reason : String) : Effect
  | notifyConnection (listener : Nat) (state : String) : Effect
  | notifyMessage (listener : Nat) (data : Json) : Effect
  | logError (msg : String) : Effect
  | logWarn (msg : String) : Effect
deriving Repr

/-- Recognizes a reconnect-timer arm (a scheduled reconnect). -/
def Effect.isArmReconnect : Effect → Bool
  | Effect.armReconnectTimer _ => true
  | _ => false

/-- Recognizes a write to the transport. -/
def Effect.isWsSend : Effect → Bool
  | Effect.wsSend _ => true
  | _ => false

/-- Recognizes a message-observer callback invocation. -/
def Effect.isNotifyMessage : Effect → Bool
  | Effect.notifyMessage _ _ => true
  | _ => false

/-- Recognizes a connection-state-observer callback invocation. -/
def Effect.isNotifyConnection : Effect → Bool
  | Effect.notifyConnection _ _ => true
  | _ => false

/-- Recognizes a message-observer invocation of the given listener. -/
def Effect.isNotifyMessageTo (l : Nat) : Effect → Bool
  | Effect.notifyMessage m _ => m = l
  | _ => false

/-- Recognizes a transport open. -/
def Effect.isOpenTransport : Effect → Bool
  | Effect.openTransport _ => true
  | _ => false

/-- The test this.ws and this.ws.readyState equals WebSocket.OPEN, used by
connect, send and isConnected. -/
def wsIsOpen (s : ManagerState) : Bool :=
  match s.ws with
  | some w => w.readyState == ReadyState.OPEN
  | none => false

/-- Outcome of a connect call: the early Promise.resolve() short-circuit,
or a pending promise settled later by the onopen/onerror handlers. -/
inductive ConnectOutcome where
  | resolvedNow : ConnectOutcome
  | pending : ConnectOutcome
deriving DecidableEq, Repr

/-- connect(path).  The JS default argument is path equal to the string
slash ws; callers of connect() with no argument pass that default
explicitly in this embedding.  Idempotence guard first; otherwise the
synchronous part of the promise body runs: set isConnecting, resolve the
URL and construct the transport (readyState CONNECTING), wire handlers.
The catch branch around the construction (reachable only if the host
WebSocket constructor itself throws) is not modelled: construction is
treated as non-throwing, failures surface through onerror/onclose. -/
def connect (s : ManagerState) (path : String) :
    ManagerState × List Effect × ConnectOutcome :=
  if s.isConnecting || wsIsOpen s then
    (s, [], ConnectOutcome.resolvedNow)
  else
    ({ s with isConnecting := true, ws := some { readyState := ReadyState.CONNECTING } },
     [Effect.openTransport path], ConnectOutcome.pending)

/-- stopHeartbeat(): clear the probe interval and the liveness timeout if
armed. -/
def stopHeartbeat (s : ManagerState) : ManagerState × List Effect :=
  let p1 :=
    if s.heartbeatInterval then
      ({ s with heartbeatInterval := false }, [Effect.clearHeartbeatInterval])
    else (s, ([] : List Effect))
  let p2 :=
    if p1.1.heartbeatTimeout then
      ({ p1.1 with heartbeatTimeout := false }, [Effect.clearHeartbeatTimeout])
    else (p1.1, ([] : List Effect))
  (p2.1, p1.2 ++ p2.2)

/-- resetHeartbeatTimeout(): clear any armed liveness timeout, then arm a
fresh one at 35000 ms (ping period plus 5 s buffer). -/
def resetHeartbeatTimeout (s : ManagerState) : ManagerState × List Effect :=
  let e1 := if s.heartbeatTimeout then [Effect.clearHeartbeatTimeout] else []
  ({ s with heartbeatTimeout := true }, e1 ++ [Effect.armHeartbeatTimeout 35000])

/-- startHeartbeat(): stopHeartbeat, arm the 30000 ms probe interval, then
resetHeartbeatTimeout. -/
def startHeartbeat (s : ManagerState) : ManagerState × List Effect :=
  let p1 := stopHeartbeat s
  let s2 := { p1.1 with heartbeatInterval := true }
  let p3 := resetHeartbeatTimeout s2
  (p3.1, p1.2 ++ [Effect.armHeartbeatInterval 30000] ++ p3.2)

/-- The backoff delay Math.min(1000 * Math.pow(2, reconnectAttempts), 30000). -/
def reconnectDelay (n : Nat) : Nat := min (1000 * 2 ^ n) 30000

/-- scheduleReconnect(): give up with only a console.error once the
attempt counter has reached the maximum; otherwise arm the reconnect timer
at the backoff delay. -/
def scheduleReconnect (s : ManagerState) : ManagerState × List Effect :=
  if s.reconnectAttempts ≥ maxReconnectAttempts then
    (s, [Effect.logError "Max reconnection attempts reached"])
  else
    ({ s with reconnectTimeout := true },
     [Effect.armReconnectTimer (reconnectDelay s.reconnectAttempts)])

/-- disconnect(): cancel a pending reconnect timer, disarm the heartbeat,
close the transport (if any) with the clean-shutdown code 1000 and drop
the reference to it. -/
def disconnect (s : ManagerState) : ManagerState × List Effect :=
  let p1 :=
    if s.reconnectTimeout then
      ({ s with reconnectTimeout := false }, [Effect.clearReconnectTimer])
    else (s, ([] : List Effect))
  let p2 := stopHeartbeat p1.1
  let p3 :=
    match p2.1.ws with
    | some _ => ({ p2.1 with ws := none }, [Effect.wsClose 1000 "Client disconnect"])
    | none => (p2.1, ([] : List Effect))
  (p3.1, p1.2 ++ p2.2 ++ p3.2)

/-- send(data).  Writes JSON.stringify(data) to the transport only when it
is open; the try/catch around ws.send is modelled by the transportSendOk
flag (false means ws.send threw and the catch branch ran).  Returns the
boolean result; never throws, never queues, never touches manager state. -/
def send (s : ManagerState) (data : Json) (transportSendOk : Bool) :
    ManagerState × List Effect × Bool :=
  if wsIsOpen s then
    if transportSendOk then
      (s, [Effect.wsSend (stringify data)], true)
    else
      (s, [Effect.logError "Failed to send WebSocket message"], false)
  else
    (s, [Effect.logWarn "WebSocket not connected, cannot send message"], false)

/-- handleMessage(event): JSON.parse the frame text (the host parser is the
jsonParse parameter; a parse exception is its none result, landing in the
catch branch).  On success notify every message listener with the parsed
envelope, then reset the liveness timeout when the discriminator is the
pong literal. -/
def handleMessage (jsonParse : String → Option Json) (s : ManagerState)
    (text : String) : ManagerState × List Effect :=
  match jsonParse text with
  | none => (s, [Effect.logError "Failed to parse WebSocket message"])
  | some data =>
    let notified := s.messageListeners.map (fun l => Effect.notifyMessage l data)
    if data.typeField = some "pong" then
      let p := resetHeartbeatTimeout s
      (p.1, notified ++ p.2)
    else
      (s, notified)

/-- The onopen handler: the transport has switched its readyState to OPEN;
clear isConnecting, zero the failure counter, start the heartbeat, notify
connection listeners with the connected label (the pending connect promise
also resolves here). -/
def onOpen (s : ManagerState) : ManagerState × List Effect :=
  let s1 := { s with ws := some { readyState := ReadyState.OPEN },
                     isConnecting := false,
                     reconnectAttempts := 0 }
  let p2 := startHeartbeat s1
  (p2.1, p2.2 ++ p2.1.connectionListeners.map
      (fun l => Effect.notifyConnection l "connected"))

/-- The onclose handler for a close event with the given code: the
transport has switched its readyState to CLOSED; clear isConnecting,
stop the heartbeat, notify connection listeners with the disconnected
label, and when the code is not the clean-shutdown code 1000 and the
failure counter is below the maximum, schedule a reconnect. -/
def onClose (s : ManagerState) (code : Nat) : ManagerState × List Effect :=
  let s1 := { s with ws := s.ws.map (fun _ => { readyState := ReadyState.CLOSED }),
                     isConnecting := false }
  let p2 := stopHeartbeat s1
  let notified := p2.1.connectionListeners.map
      (fun l => Effect.notifyConnection l "disconnected")
  if code ≠ 1000 ∧ p2.1.reconnectAttempts < maxReconnectAttempts then
    let p3 := scheduleReconnect p2.1
    (p3.1, p2.2 ++ notified ++ p3.2)
  else
    (p2.1, p2.2 ++ notified)

/-- The onerror handler: clear isConnecting, notify connection listeners
with the error label (the pending connect promise also rejects here). -/
def onError (s : ManagerState) : ManagerState × List Effect :=
  let s1 := { s with isConnecting := false }
  (s1, s1.connectionListeners.map (fun l => Effect.notifyConnection l "error"))

/-- The heartbeat probe interval firing: send the ping envelope. -/
def onHeartbeatIntervalFire (s : ManagerState) (transportSendOk : Bool) :
    ManagerState × List Effect :=
  let p := send s (Json.obj [("type", Json.str "ping")]) transportSendOk
  (p.1, p.2.1)

/-- The liveness timeout firing (no pong arrived in 35 s): warn,
disconnect (force-closing the transport) and schedule a reconnect. -/
def onHeartbeatTimeoutFire (s : ManagerState) : ManagerState × List Effect :=
  let p1 := disconnect s
  let p2 := scheduleReconnect p1.1
  (p2.1, [Effect.logWarn "WebSocket heartbeat timeout, reconnecting..."] ++ p1.2 ++ p2.2)

/-- The reconnect timer firing: increment the failure counter, then call
connect() with no argument, which means the default path slash ws. -/
def onReconnectFire (s : ManagerState) : ManagerState × List Effect × ConnectOutcome :=
  connect { s with reconnectAttempts := s.reconnectAttempts + 1 } "/ws"

/-- addConnectionListener (JS Set.add: no duplicate membership). -/
def addConnectionListener (s : ManagerState) (cb : Nat) : ManagerState :=
  if cb ∈ s.connectionListeners then s
  else { s with connectionListeners := s.connectionListeners ++ [cb] }

/-- removeConnectionListener (JS Set.delete). -/
def removeConnectionListener (s : ManagerState) (cb : Nat) : ManagerState :=
  { s with connectionListeners := s.connectionListeners.erase cb }

/-- addMessageListener (JS Set.add: no duplicate membership). -/
def addMessageListener (s : ManagerState) (cb : Nat) : ManagerState :=
  if cb ∈ s.messageListeners then s
  else { s with messageListeners := s.messageListeners ++ [cb] }

/-- removeMessageListener (JS Set.delete). -/
def removeMessageListener (s : ManagerState) (cb : Nat) : ManagerState :=
  { s with messageListeners := s.messageListeners.erase cb }

/-- getState(): derived from the transport readyState; no ws means the
disconnected label.  The JS switch has a default branch returning an
unknown label, unreachable because readyState is always one of the four
constants. -/
def getState (s : ManagerState) : String :=
  match s.ws with
  | none => "disconnected"
  | some w =>
    match w.readyState with
    | ReadyState.CONNECTING => "connecting"
    | ReadyState.OPEN => "connected"
    | ReadyState.CLOSING => "closing"
    | ReadyState.CLOSED => "disconnected"

/-- isConnected(): this.ws and readyState equals OPEN, coerced to its
truthiness. -/
def isConnected (s : ManagerState) : Bool :=
  match s.ws with
  | some w => w.readyState == ReadyState.OPEN
  | none => false

/-- buildWsUrl of config.js, applied after the environment fallback chain
has produced the base URL: strip a leading slash from the path and a
trailing slash from the base, join with a single slash. -/
def buildWsUrl (baseWsUrl : String) (path : String) : String :=
  let cleanPath := if path.startsWith "/" then path.drop 1 else path
  let cleanBaseUrl := if baseWsUrl.endsWith "/" then baseWsUrl.dropRight 1 else baseWsUrl
  cleanBaseUrl ++ "/" ++ cleanPath

/-- One input to the manager: a method call, a transport event or a timer
firing.  transportClosing is the transport entering its CLOSING readyState
(a close handshake in progress, for instance server initiated); the
browser fires no manager callback for it, the manager only observes it
through readyState. -/
inductive Event where
  | connectReq (path : String) : Event
  | disconnectReq : Event
  | sendReq (data : Json) (transportSendOk : Bool) : Event
  | transportOpen : Event
  | transportClosing : Event
  | transportClose (code : Nat) : Event
  | transportError : Event
  | frame (text : String) : Event
  | heartbeatIntervalFired (transportSendOk : Bool) : Event
  | heartbeatTimeoutFired : Event
  | reconnectTimerFired : Event
  | addConnListener (cb : Nat) : Event
  | removeConnListener (cb : Nat) : Event
  | addMsgListener (cb : Nat) : Event
  | removeMsgListener (cb : Nat) : Event

/-- The state transition of one event (effects projected away). -/
def step (jsonParse : String → Option Json) (s : ManagerState) :
    Event → ManagerState
  | Event.connectReq path => (connect s path).1
  | Event.disconnectReq => (disconnect s).1
  | Event.sendReq d ok => (send s d ok).1
  | Event.transportOpen => (onOpen s).1
  | Event.transportClosing =>
      { s with ws := s.ws.map fun _ => { readyState := ReadyState.CLOSING } }
  | Event.transportClose c => (onClose s c).1
  | Event.transportError => (onError s).1
  | Event.frame t => (handleMessage jsonParse s t).1
  | Event.heartbeatIntervalFired ok => (onHeartbeatIntervalFire s ok).1
  | Event.heartbeatTimeoutFired => (onHeartbeatTimeoutFire s).1
  | Event.reconnectTimerFired => (onReconnectFire s).1
  | Event.addConnListener cb => addConnectionListener s cb
  | Event.removeConnListener cb => removeConnectionListener s cb
  | Event.addMsgListener cb => addMessageListener s cb
  | Event.removeMsgListener cb => removeMessageListener s cb

/-! Helper lemmas about the state part of the individual operations. -/

/-- stopHeartbeat only clears the two heartbeat flags. -/
theorem stopHeartbeat_state (s : ManagerState) :
    (stopHeartbeat s).1 =
      { s with heartbeatInterval := false, heartbeatTimeout := false } := by
  rcases s with ⟨ws, ra, ic, cl, ml, hi, ht, rt⟩
  cases hi <;> cases ht <;> rfl

/-- startHeartbeat only sets the two heartbeat flags. -/
theorem startHeartbeat_state (s : ManagerState) :
    (startHeartbeat s).1 =
      { s with heartbeatInterval := true, heartbeatTimeout := true } := by
  rcases s with ⟨ws, ra, ic, cl, ml, hi, ht, rt⟩
  cases hi <;> cases ht <;> rfl

/-- The state after the onopen handler in closed form. -/
theorem onOpen_state (s : ManagerState) :
    (onOpen s).1 =
      { s with ws := some { readyState := ReadyState.OPEN },
               isConnecting := false,
               reconnectAttempts := 0,
               heartbeatInterval := true,
               heartbeatTimeout := true } := by
  rcases s with ⟨ws, ra, ic, cl, ml, hi, ht, rt⟩
  cases hi <;> cases ht <;> rfl

/-- No effect of stopHeartbeat arms the reconnect timer. -/
theorem stopHeartbeat_no_armReconnect (s : ManagerState) :
    (stopHeartbeat s).2.countP Effect.isArmReconnect = 0 := by
  rcases s with ⟨ws, ra, ic, cl, ml, hi, ht, rt⟩
  cases hi <;> cases ht <;> rfl

/-- Connection-listener notifications are not reconnect-timer arms. -/
theorem countP_armReconnect_notify_map (l : List Nat) (lab : String) :
    (l.map fun c => Effect.notifyConnection c lab).countP Effect.isArmReconnect = 0 := by
  induction l with
  | nil => rfl
  | cons a t ih => simp [List.countP_cons, Effect.isArmReconnect, ih]

/-! C5: connect is idempotent when already connecting or connected. -/

/-- C5: if the manager is already mid-connect or the transport is already
open, connect(path) returns immediately as a resolved no-op: the state is
unchanged and no effect is produced, in particular no second transport is
opened. -/
theorem connect_idempotent (s : ManagerState) (path : String)
    (h : s.isConnecting = true ∨ wsIsOpen s = true) :
    connect s path = (s, [], ConnectOutcome.resolvedNow) := by
  unfold connect
  rcases h with h | h <;> simp [h]

/-- Witness for connect_idempotent at a connected state. -/
theorem connect_idempotent_witness :
    (wsIsOpen { initialState with ws := some { readyState := ReadyState.OPEN } } = true) ∧
    connect { initialState with ws := some { readyState := ReadyState.OPEN } } "/ws" =
      ({ initialState with ws := some { readyState := ReadyState.OPEN } }, [],
        ConnectOutcome.resolvedNow) :=
  ⟨rfl, connect_idempotent _ "/ws" (Or.inr rfl)⟩

/-! C6: send writes only while open, reports a boolean, never throws,
never queues, never changes manager state. -/

/-- C6: send leaves the manager state unchanged in every case; it returns
true exactly when the transport is open and the underlying write does not
throw; while open (write succeeding) the single effect is the serialized
payload written to the transport; while not connected nothing is written
and false is returned. -/
theorem send_only_when_open (s : ManagerState) (data : Json) (ok : Bool) :
    (send s data ok).1 = s ∧
    ((send s data ok).2.2 = true ↔ (wsIsOpen s = true ∧ ok = true)) ∧
    (wsIsOpen s = true → ok = true →
      (send s data ok).2.1 = [Effect.wsSend (stringify data)]) ∧
    (wsIsOpen s = false →
      (send s data ok).2.1.countP Effect.isWsSend = 0 ∧ (send s data ok).2.2 = false) := by
  unfold send
  by_cases h : wsIsOpen s = true
  · cases ok <;> simp [h, List.countP_cons, Effect.isWsSend]
  · simp only [Bool.not_eq_true] at h
    simp [h, List.countP_cons, Effect.isWsSend]

/-- Witness for send_only_when_open: sending while disconnected returns
false with nothing written. -/
theorem send_only_when_open_witness :
    wsIsOpen initialState = false ∧
    (send initialState Json.null true).2.1.countP Effect.isWsSend = 0 ∧
    (send initialState Json.null true).2.2 = false :=
  ⟨rfl, (send_only_when_open initialState Json.null true).2.2.2 rfl⟩

/-! C8: the labels getState can return. -/

/-- A manager reached from the initial state by a connect call, a
successful open, and the transport then entering its close handshake
(readyState CLOSING). -/
def sClosing : ManagerState :=
  ([Event.connectReq "/ws", Event.transportOpen, Event.transportClosing]).foldl
    (step fun _ => none) initialState

/-- C8 counterexample: in the reachable state whose transport is CLOSING,
getState returns the closing label, which is none of the four labels the
claim allows (disconnected, connecting, connected, error); in particular
the claimed error label is never among the possible return values. -/
theorem getState_four_labels_cex :
    getState sClosing = "closing" ∧
    ¬ (getState sClosing = "disconnected" ∨ getState sClosing = "connecting" ∨
       getState sClosing = "connected" ∨ getState sClosing = "error") := by
  refine ⟨rfl, ?_⟩
  intro h
  simp only [sClosing, List.foldl_cons, List.foldl_nil] at h
  simp [getState, step, connect, onOpen, startHeartbeat, stopHeartbeat,
    resetHeartbeatTimeout, initialState, wsIsOpen] at h

/-- C8 amended: getState returns one of the labels disconnected,
connecting, connected, closing, derived from the transport readyState (it
never returns an error label), and isConnected is true exactly when
getState returns the connected label. -/
theorem getState_labels (s : ManagerState) :
    (getState s = "disconnected" ∨ getState s = "connecting" ∨
     getState s = "connected" ∨ getState s = "closing") ∧
    (isConnected s = true ↔ getState s = "connected") := by
  rcases s with ⟨ws, ra, ic, cl, ml, hi, ht, rt⟩
  cases ws with
  | none => simp [getState, isConnected]
  | some w =>
    rcases w with ⟨rs⟩
    cases rs <;> simp [getState, isConnected]

/-- Witness for getState_labels at the initial (no-transport) state. -/
theorem getState_labels_witness :
    (isConnected initialState = true ↔ getState initialState = "connected") :=
  (getState_labels initialState).2

/-! C10: an automatically scheduled reconnect always targets the default
path. -/

/-- C10: the reconnect-timer callback increments the failure counter and
then calls connect() without an argument, so the JS default path slash ws
is used; whenever the attempt actually opens a transport, the path handed
to the URL resolver is that default, regardless of the path of the
original explicit connect call (the manager stores no path). -/
theorem reconnect_targets_default_path (s : ManagerState)
    (h1 : s.isConnecting = false) (h2 : wsIsOpen s = false) :
    onReconnectFire s =
      connect { s with reconnectAttempts := s.reconnectAttempts + 1 } "/ws" ∧
    (onReconnectFire s).2.1 = [Effect.openTransport "/ws"] := by
  rcases s with ⟨ws, ra, ic, cl, ml, hi, ht, rt⟩
  refine ⟨rfl, ?_⟩
  simp only at h1
  subst h1
  unfold onReconnectFire connect wsIsOpen at *
  simp [h2]

/-- Witness for reconnect_targets_default_path at the initial state. -/
theorem reconnect_targets_default_path_witness :
    initialState.isConnecting = false ∧ wsIsOpen initialState = false ∧
    (onReconnectFire initialState).2.1 = [Effect.openTransport "/ws"] :=
  ⟨rfl, rfl, (reconnect_targets_default_path initialState rfl rfl).2⟩

/-! C1: unexpected close below the retry maximum schedules exactly one
backoff reconnect and the counter is incremented before the retry. -/

/-- C1: on a close event whose code is not 1000, while the failure counter
n is below the maximum of 10, exactly one reconnect timer is armed, its
delay is min(1000 * 2^n, 30000) milliseconds, the counter itself is not
yet changed by the close event, and when the timer fires the counter is
incremented to n + 1 before connect is attempted (the connect call of the
timer callback runs on the incremented state). -/
theorem onClose_unexpected_backoff (s : ManagerState) (code : Nat)
    (hcode : code ≠ 1000) (hlt : s.reconnectAttempts < maxReconnectAttempts) :
    ((onClose s code).2.countP Effect.isArmReconnect = 1) ∧
    (Effect.armReconnectTimer (min (1000 * 2 ^ s.reconnectAttempts) 30000) ∈
        (onClose s code).2) ∧
    ((onClose s code).1.reconnectAttempts = s.reconnectAttempts) ∧
    (onReconnectFire (onClose s code).1 =
      connect { (onClose s code).1 with
                  reconnectAttempts := s.reconnectAttempts + 1 } "/ws") := by
  have hnge : ¬ (s.reconnectAttempts ≥ maxReconnectAttempts) := by omega
  rcases s with ⟨ws, ra, ic, cl, ml, hi, ht, rt⟩
  simp only at hlt hnge
  cases hi <;> cases ht <;>
    simp [onClose, stopHeartbeat, scheduleReconnect, onReconnectFire, reconnectDelay,
      hcode, hlt, hnge, List.countP_append, List.countP_cons,
      countP_armReconnect_notify_map, Effect.isArmReconnect]

/-- Witness for onClose_unexpected_backoff: first unexpected drop from the
connected state schedules a 1000 ms reconnect. -/
theorem onClose_unexpected_backoff_witness :
    (1006 ≠ 1000) ∧ (initialState.reconnectAttempts < maxReconnectAttempts) ∧
    ((onClose initialState 1006).2.countP Effect.isArmReconnect = 1) ∧
    (Effect.armReconnectTimer 1000 ∈ (onClose initialState 1006).2) := by
  have h := onClose_unexpected_backoff initialState 1006 (by decide) (by decide)
  exact ⟨by decide, by decide, h.1, by simpa using h.2.1⟩

/-! C4: a clean close (code 1000) never schedules a reconnect. -/

/-- C4: on a close event carrying the clean-shutdown code 1000, no
reconnect timer is armed by the event, both heartbeat timers end up
disarmed, the reconnect-timer field is left exactly as it was (so it stays
empty when the close follows the manager's own disconnect, which cleared
it), and the state settles at the disconnected label. -/
theorem onClose_clean_no_reconnect (s : ManagerState) :
    ((onClose s 1000).2.countP Effect.isArmReconnect = 0) ∧
    ((onClose s 1000).1.heartbeatInterval = false) ∧
    ((onClose s 1000).1.heartbeatTimeout = false) ∧
    ((onClose s 1000).1.reconnectTimeout = s.reconnectTimeout) ∧
    getState (onClose s 1000).1 = "disconnected" := by
  rcases s with ⟨ws, ra, ic, cl, ml, hi, ht, rt⟩
  cases ws <;> cases hi <;> cases ht <;>
    simp [onClose, stopHeartbeat, getState, List.countP_append, List.countP_cons,
      countP_armReconnect_notify_map, Effect.isArmReconnect]

/-! C2: behavior at reconnect exhaustion. -/

/-- A manager that has used up all ten reconnect attempts, with one
registered connection-state observer. -/
def sExhausted : ManagerState :=
  { initialState with reconnectAttempts := 10, connectionListeners := [0] }

/-- C2 counterexample: at the exhaustion point, with a connection-state
observer registered, scheduleReconnect produces no observer notification
at all (only a console error), so no give-up state is surfaced to
observers; and an explicit connect() call afterwards leaves the failure
counter at 10 instead of resetting it. -/
theorem exhaustion_not_surfaced_cex :
    sExhausted.connectionListeners = [0] ∧
    ((scheduleReconnect sExhausted).2.countP Effect.isNotifyConnection = 0) ∧
    ((scheduleReconnect sExhausted).2 = [Effect.logError "Max reconnection attempts reached"]) ∧
    ((connect sExhausted "/ws").1.reconnectAttempts = 10) := by
  refine ⟨rfl, rfl, rfl, rfl⟩

/-- C2 amended: once the counter has reached the maximum of 10,
scheduleReconnect changes nothing and emits only a local console error —
no reconnect timer is armed and no observer is notified of the
exhaustion.  A later explicit connect() call does not reset the counter at
call time; it still opens a fresh transport (when not already
connecting/connected), and the counter is reset to zero only when that
attempt reaches a successful open. -/
theorem exhaustion_behavior (s : ManagerState)
    (h : s.reconnectAttempts ≥ maxReconnectAttempts) :
    (scheduleReconnect s).1 = s ∧
    ((scheduleReconnect s).2 = [Effect.logError "Max reconnection attempts reached"]) ∧
    (∀ path, s.isConnecting = false → wsIsOpen s = false →
      (connect s path).2.1 = [Effect.openTransport path] ∧
      (connect s path).1.reconnectAttempts = s.reconnectAttempts ∧
      (onOpen (connect s path).1).1.reconnectAttempts = 0) := by
  refine ⟨?_, ?_, ?_⟩
  · simp [scheduleReconnect, h]
  · simp [scheduleReconnect, h]
  · intro path h1 h2
    have hcond : (s.isConnecting || wsIsOpen s) = false := by rw [h1, h2]; rfl
    refine ⟨?_, ?_, ?_⟩ <;> simp [connect, hcond, onOpen_state]

/-- Witness for exhaustion_behavior at the exhausted manager. -/
theorem exhaustion_behavior_witness :
    (sExhausted.reconnectAttempts ≥ maxReconnectAttempts) ∧
    (scheduleReconnect sExhausted).1 = sExhausted ∧
    (onOpen (connect sExhausted "/ws").1).1.reconnectAttempts = 0 := by
  have h := exhaustion_behavior sExhausted (by decide)
  exact ⟨by decide, h.1, ((h.2.2 "/ws" rfl rfl).2.2)⟩

/-! C3: heartbeat probe and liveness timeout. -/

/-- C3: on entering the connected state the manager arms the 30000 ms
probe interval and the 35000 ms liveness timeout; each firing of the probe
interval while the transport is open writes the ping envelope to the
transport; and a firing of the liveness timeout (35 s in the connected
state without a pong resetting it) force-closes the transport and arms
exactly one reconnect timer (the failure counter being below the maximum,
as it always is in the connected state, where it was reset to zero). -/
theorem heartbeat_liveness (s : ManagerState)
    (hlt : s.reconnectAttempts < maxReconnectAttempts) :
    (Effect.armHeartbeatInterval 30000 ∈ (onOpen s).2) ∧
    (Effect.armHeartbeatTimeout 35000 ∈ (onOpen s).2) ∧
    (wsIsOpen s = true →
      (onHeartbeatIntervalFire s true).2 = [Effect.wsSend "\x7b\"type\":\"ping\"\x7d"]) ∧
    (s.ws.isSome = true →
      Effect.wsClose 1000 "Client disconnect" ∈ (onHeartbeatTimeoutFire s).2 ∧
      (onHeartbeatTimeoutFire s).2.countP Effect.isArmReconnect = 1 ∧
      Effect.armReconnectTimer (reconnectDelay s.reconnectAttempts) ∈
        (onHeartbeatTimeoutFire s).2) := by
  have hnge : ¬ (s.reconnectAttempts ≥ maxReconnectAttempts) := by omega
  rcases s with ⟨ws, ra, ic, cl, ml, hi, ht, rt⟩
  simp only at hnge
  refine ⟨?_, ?_, ?_, ?_⟩
  · cases hi <;> cases ht <;>
      simp [onOpen, startHeartbeat, stopHeartbeat, resetHeartbeatTimeout]
  · cases hi <;> cases ht <;>
      simp [onOpen, startHeartbeat, stopHeartbeat, resetHeartbeatTimeout]
  · intro h2
    simp [onHeartbeatIntervalFire, send, h2, stringify, stringifyFields]
  · intro hws
    cases ws with
    | none => simp at hws
    | some w =>
      cases hi <;> cases ht <;> cases rt <;>
        simp [onHeartbeatTimeoutFire, disconnect, stopHeartbeat, scheduleReconnect, hnge,
          List.countP_append, List.countP_cons, Effect.isArmReconnect]

/-- Witness for heartbeat_liveness at a freshly connected manager. -/
theorem heartbeat_liveness_witness :
    ((onOpen initialState).1.reconnectAttempts < maxReconnectAttempts) ∧
    (wsIsOpen (onOpen initialState).1 = true) ∧
    ((onHeartbeatIntervalFire (onOpen initialState).1 true).2 =
      [Effect.wsSend "\x7b\"type\":\"ping\"\x7d"]) ∧
    ((onHeartbeatTimeoutFire (onOpen initialState).1).2.countP Effect.isArmReconnect = 1) := by
  have h := heartbeat_liveness (onOpen initialState).1 (by decide)
  exact ⟨by decide, rfl, h.2.2.1 rfl, (h.2.2.2 rfl).2.1⟩

/-! C7: parse-failure isolation and exactly-once dispatch.  Helper lemmas
about the message-listener fan-out first. -/

/-- Filtering the fan-out list for message notifications keeps all of it. -/
theorem filter_isNotifyMessage_map (l : List Nat) (j : Json) :
    (l.map fun c => Effect.notifyMessage c j).filter Effect.isNotifyMessage
      = l.map fun c => Effect.notifyMessage c j := by
  induction l with
  | nil => rfl
  | cons a t ih => simp [List.filter_cons, Effect.isNotifyMessage, ih]

/-- A listener not in the fan-out list receives no notification. -/
theorem countP_isNotifyMessageTo_map_zero (l : List Nat) (j : Json) (c : Nat)
    (hc : c ∉ l) :
    (l.map fun m => Effect.notifyMessage m j).countP (Effect.isNotifyMessageTo c) = 0 := by
  induction l with
  | nil => rfl
  | cons a t ih =>
    have h1 : a ≠ c := fun h => hc (h ▸ List.mem_cons_self a t)
    have h2 : c ∉ t := fun h => hc (List.mem_cons_of_mem a h)
    simp [List.countP_cons, Effect.isNotifyMessageTo, h1, ih h2]

/-- A listener occurring once in the fan-out list is notified exactly
once. -/
theorem countP_isNotifyMessageTo_map_one (l : List Nat) (j : Json) (c : Nat)
    (hnd : l.Nodup) (hc : c ∈ l) :
    (l.map fun m => Effect.notifyMessage m j).countP (Effect.isNotifyMessageTo c) = 1 := by
  induction l with
  | nil => simp at hc
  | cons a t ih =>
    rcases List.nodup_cons.mp hnd with ⟨ha, hndt⟩
    rcases List.mem_cons.mp hc with h | h
    · subst h
      simp [List.countP_cons, Effect.isNotifyMessageTo,
        countP_isNotifyMessageTo_map_zero t j c ha]
    · have h1 : a ≠ c := fun he => ha (he ▸ h)
      simp [List.countP_cons, Effect.isNotifyMessageTo, h1, ih hndt h]

/-- A frame that fails to parse is dropped with only a console error. -/
theorem handleMessage_none (jsonParse : String → Option Json) (s : ManagerState)
    (t : String) (h : jsonParse t = none) :
    handleMessage jsonParse s t = (s, [Effect.logError "Failed to parse WebSocket message"]) := by
  simp [handleMessage, h]

/-- The message notifications of a successfully parsed frame are exactly
the fan-out over the registered message listeners with the parsed
envelope. -/
theorem handleMessage_filter (jsonParse : String → Option Json) (s : ManagerState)
    (t : String) (j : Json) (hj : jsonParse t = some j) :
    (handleMessage jsonParse s t).2.filter Effect.isNotifyMessage =
      s.messageListeners.map fun l => Effect.notifyMessage l j := by
  rcases s with ⟨ws, ra, ic, cl, ml, hi, ht, rt⟩
  by_cases hp : j.typeField = some "pong"
  · cases ht <;>
      simp [handleMessage, hj, hp, resetHeartbeatTimeout, List.filter_append,
        filter_isNotifyMessage_map, List.filter_cons, Effect.isNotifyMessage]
  · simp [handleMessage, hj, hp, filter_isNotifyMessage_map]

/-- Each registered message listener is invoked exactly once per
successfully parsed frame. -/
theorem handleMessage_count_one (jsonParse : String → Option Json) (s : ManagerState)
    (t : String) (j : Json) (hj : jsonParse t = some j)
    (hnd : s.messageListeners.Nodup) (l : Nat) (hl : l ∈ s.messageListeners) :
    (handleMessage jsonParse s t).2.countP (Effect.isNotifyMessageTo l) = 1 := by
  rcases s with ⟨ws, ra, ic, cl, ml, hi, ht, rt⟩
  simp only at hnd hl
  by_cases hp : j.typeField = some "pong"
  · cases ht <;>
      simp [handleMessage, hj, hp, resetHeartbeatTimeout, List.countP_append,
        List.countP_cons, Effect.isNotifyMessageTo,
        countP_isNotifyMessageTo_map_one ml j l hnd hl]
  · simp [handleMessage, hj, hp, countP_isNotifyMessageTo_map_one ml j l hnd hl]

/-- C7: a frame whose text fails to parse is dropped without invoking any
message observer and without changing the manager state (the handler
returns normally, only logging the parse error); a successfully parsed
frame is dispatched to every registered message observer exactly once;
and after a malformed frame a subsequent well-formed frame is still
dispatched to every registered observer. -/
theorem handleMessage_parse_isolation (jsonParse : String → Option Json)
    (s : ManagerState) (t1 t2 : String) :
    (jsonParse t1 = none →
      (handleMessage jsonParse s t1).1 = s ∧
      (handleMessage jsonParse s t1).2.countP Effect.isNotifyMessage = 0) ∧
    (∀ j, jsonParse t2 = some j →
      ((handleMessage jsonParse s t2).2.filter Effect.isNotifyMessage =
        s.messageListeners.map fun l => Effect.notifyMessage l j) ∧
      (s.messageListeners.Nodup → ∀ l ∈ s.messageListeners,
        (handleMessage jsonParse s t2).2.countP (Effect.isNotifyMessageTo l) = 1)) ∧
    (jsonParse t1 = none → ∀ j, jsonParse t2 = some j →
      (handleMessage jsonParse (handleMessage jsonParse s t1).1 t2).2.filter
          Effect.isNotifyMessage =
        s.messageListeners.map fun l => Effect.notifyMessage l j) := by
  refine ⟨?_, ?_, ?_⟩
  · intro h1
    rw [handleMessage_none jsonParse s t1 h1]
    exact ⟨rfl, rfl⟩
  · intro j hj
    exact ⟨handleMessage_filter jsonParse s t2 j hj,
      fun hnd l hl => handleMessage_count_one jsonParse s t2 j hj hnd l hl⟩
  · intro h1 j hj
    rw [handleMessage_none jsonParse s t1 h1]
    exact handleMessage_filter jsonParse s t2 j hj

/-- Witness for handleMessage_parse_isolation: the literal text not json
is dropped, a following well-formed pong frame reaches the single
registered listener. -/
theorem handleMessage_parse_isolation_witness :
    ((fun t => if t = "pong-frame" then some (Json.obj [("type", Json.str "pong")]) else none)
        "not json" = none) ∧
    (handleMessage
        (fun t => if t = "pong-frame" then some (Json.obj [("type", Json.str "pong")]) else none)
        { initialState with messageListeners := [7] } "not json").2.countP
        Effect.isNotifyMessage = 0 ∧
    (handleMessage
        (fun t => if t = "pong-frame" then some (Json.obj [("type", Json.str "pong")]) else none)
        (handleMessage
          (fun t => if t = "pong-frame" then some (Json.obj [("type", Json.str "pong")]) else none)
          { initialState with messageListeners := [7] } "not json").1 "pong-frame").2.filter
        Effect.isNotifyMessage =
      [Effect.notifyMessage 7 (Json.obj [("type", Json.str "pong")])] := by
  have h := handleMessage_parse_isolation
    (fun t => if t = "pong-frame" then some (Json.obj [("type", Json.str "pong")]) else none)
    { initialState with messageListeners := [7] } "not json" "pong-frame"
  have h1 : (fun t => if t = "pong-frame" then some (Json.obj [("type", Json.str "pong")]) else none)
      "not json" = none := by simp
  have h2 : (fun t => if t = "pong-frame" then some (Json.obj [("type", Json.str "pong")]) else none)
      "pong-frame" = some (Json.obj [("type", Json.str "pong")]) := by simp
  exact ⟨h1, (h.1 h1).2, h.2.2 h1 (Json.obj [("type", Json.str "pong")]) h2⟩

/-! C9: the failure counter resets only on a successful open and never
decreases otherwise.  Per-operation preservation lemmas first. -/

/-- connect never touches the failure counter. -/
theorem connect_attempts (s : ManagerState) (path : String) :
    (connect s path).1.reconnectAttempts = s.reconnectAttempts := by
  unfold connect; split <;> rfl

/-- The state after disconnect in closed form. -/
theorem disconnect_state (s : ManagerState) :
    (disconnect s).1 =
      { s with ws := none, heartbeatInterval := false, heartbeatTimeout := false,
               reconnectTimeout := false } := by
  rcases s with ⟨ws, ra, ic, cl, ml, hi, ht, rt⟩
  cases ws <;> cases hi <;> cases ht <;> cases rt <;> rfl

/-- send never touches the manager state. -/
theorem send_state (s : ManagerState) (data : Json) (ok : Bool) :
    (send s data ok).1 = s := by
  unfold send
  split
  · split <;> rfl
  · rfl

/-- resetHeartbeatTimeout only sets the liveness-timeout flag. -/
theorem resetHeartbeatTimeout_state (s : ManagerState) :
    (resetHeartbeatTimeout s).1 = { s with heartbeatTimeout := true } := rfl

/-- scheduleReconnect never touches the failure counter. -/
theorem scheduleReconnect_attempts (s : ManagerState) :
    (scheduleReconnect s).1.reconnectAttempts = s.reconnectAttempts := by
  unfold scheduleReconnect; split <;> rfl

/-- The close handler never touches the failure counter. -/
theorem onClose_attempts (s : ManagerState) (code : Nat) :
    (onClose s code).1.reconnectAttempts = s.reconnectAttempts := by
  rcases s with ⟨ws, ra, ic, cl, ml, hi, ht, rt⟩
  by_cases h2 : code = 1000
  · cases hi <;> cases ht <;> simp [onClose, stopHeartbeat, scheduleReconnect, h2]
  · by_cases h1 : ra ≥ maxReconnectAttempts
    · have h1x := Nat.not_lt.mpr h1
      cases hi <;> cases ht <;>
        simp [onClose, stopHeartbeat, scheduleReconnect, h2, h1, h1x]
    · have h1x := Nat.not_le.mp h1
      cases hi <;> cases ht <;>
        simp [onClose, stopHeartbeat, scheduleReconnect, h2, h1, h1x]

/-- handleMessage never touches the failure counter. -/
theorem handleMessage_attempts (jsonParse : String → Option Json) (s : ManagerState)
    (t : String) :
    (handleMessage jsonParse s t).1.reconnectAttempts = s.reconnectAttempts := by
  rcases h : jsonParse t with _ | j
  · simp [handleMessage, h]
  · by_cases hp : j.typeField = some "pong" <;>
      simp [handleMessage, h, hp, resetHeartbeatTimeout_state]

/-- A single event never decreases the failure counter unless it is the
transport open. -/
theorem step_attempts_mono (jsonParse : String → Option Json) (s : ManagerState)
    (e : Event) (he : e ≠ Event.transportOpen) :
    s.reconnectAttempts ≤ (step jsonParse s e).reconnectAttempts := by
  cases e with
  | transportOpen => exact absurd rfl he
  | transportClosing => simp [step]
  | connectReq path => simp [step, connect_attempts]
  | disconnectReq => simp [step, disconnect_state]
  | sendReq d ok => simp [step, send_state]
  | transportClose c => simp [step, onClose_attempts]
  | transportError => simp [step, onError]
  | frame t => simp [step, handleMessage_attempts]
  | heartbeatIntervalFired ok =>
    simp [step, onHeartbeatIntervalFire, send_state]
  | heartbeatTimeoutFired =>
    simp [step, onHeartbeatTimeoutFire, scheduleReconnect_attempts, disconnect_state]
  | reconnectTimerFired =>
    simp [step, onReconnectFire, connect_attempts]
  | addConnListener cb =>
    by_cases hm : cb ∈ s.connectionListeners <;>
      simp [step, addConnectionListener, hm]
  | removeConnListener cb => simp [step, removeConnectionListener]
  | addMsgListener cb =>
    by_cases hm : cb ∈ s.messageListeners <;>
      simp [step, addMessageListener, hm]
  | removeMsgListener cb => simp [step, removeMessageListener]

/-- C9: across every sequence of operations and transport events, the
failure counter decreases only at a transport open, where it is reset to
zero; along any event sequence containing no transport open the counter
is monotonically non-decreasing. -/
theorem reconnectAttempts_invariant (jsonParse : String → Option Json) :
    (∀ (s : ManagerState) (e : Event),
      (step jsonParse s e).reconnectAttempts < s.reconnectAttempts →
      e = Event.transportOpen ∧ (step jsonParse s e).reconnectAttempts = 0) ∧
    (∀ (s : ManagerState) (es : List Event),
      (∀ e ∈ es, e ≠ Event.transportOpen) →
      s.reconnectAttempts ≤ (es.foldl (step jsonParse) s).reconnectAttempts) := by
  constructor
  · intro s e hlt
    by_cases he : e = Event.transportOpen
    · subst he
      refine ⟨rfl, ?_⟩
      simp [step, onOpen_state]
    · exact absurd hlt (Nat.not_lt.mpr (step_attempts_mono jsonParse s e he))
  · intro s es
    induction es generalizing s with
    | nil => intro _; exact Nat.le_refl _
    | cons a t ih =>
      intro hall
      have h1 := step_attempts_mono jsonParse s a (hall a (List.mem_cons_self a t))
      have h2 := ih (step jsonParse s a) (fun e he => hall e (List.mem_cons_of_mem a he))
      simp only [List.foldl_cons]
      exact Nat.le_trans h1 h2

/-- Witness for reconnectAttempts_invariant: one reconnect-timer firing
from the initial state does not decrease the counter. -/
theorem reconnectAttempts_invariant_witness :
    initialState.reconnectAttempts ≤
      (([Event.reconnectTimerFired]).foldl (step (fun _ => none)) initialState).reconnectAttempts := by
  refine (reconnectAttempts_invariant (fun _ => none)).2 initialState
    [Event.reconnectTimerFired] ?_
  intro e he
  simp only [List.mem_singleton] at he
  subst he
  intro h
  cases h

end WsSpec
